import Mathlib

/-!
Verification of `broadinstitute_psp/sip/steep_and_sip_external.py`.

The orchestration function `main` of that file is embedded below as `mainRun`,
a pure function over explicit table values.  Pandas data frames become
association lists of named columns; multi-index data frames become lists of
axis entries carrying a sample identifier and its metadata; rationals stand in
for the floating point similarity values.  The collaborators that `main` calls
(`steep.compute_similarity_bw_two_dfs`, `sip.prepare_multi_index_dfs`,
`sip.check_symmetry`, `sip.compute_connectivities`,
`sip.add_connectivity_metric_to_metadata`,
`GCToo.multi_index_df_to_component_dfs`) live in modules that are not part of
the sources under verification; each is modelled from the specification, as
its doc comment records.
-/

/-- A structurally recursive lexicographic comparison on character lists,
used to order axis labels (kernel-reducible, unlike the builtin order on
`String`). -/
def charListLe : List Char → List Char → Bool
  | [], _ => true
  | _ :: _, [] => false
  | a :: as, b :: bs =>
    if a.toNat < b.toNat then true
    else if b.toNat < a.toNat then false
    else charListLe as bs

/-- Lexicographic order on strings via `charListLe`. -/
def strLe (a b : String) : Bool := charListLe a.data b.data

/-- A column-metadata (or row-metadata) table of a gct: one row per sample,
columns are named fields.  Each column's value list is aligned positionally
with `rowIds`. -/
structure MetadataDF where
  rowIds : List String
  cols : List (String × List String)
deriving DecidableEq, Repr

/-- Pandas column assignment `df[field] = val` with a scalar right-hand side:
the column `field` is overwritten with the constant `val` if present,
otherwise appended. -/
def MetadataDF.setColumnConstant (df : MetadataDF) (field val : String) : MetadataDF :=
  if (df.cols.map Prod.fst).contains field then
    { df with cols := df.cols.map fun c =>
        if c.1 = field then (c.1, List.replicate df.rowIds.length val) else c }
  else
    { df with cols := df.cols ++ [(field, List.replicate df.rowIds.length val)] }

/-- Look a named column up in a metadata table. -/
def MetadataDF.getCol (df : MetadataDF) (field : String) : Option (List String) :=
  df.cols.lookup field

/-- A numeric data frame: a matrix with row labels and column labels. -/
structure DataDF where
  rowIds : List String
  colIds : List String
  data : List (List ℚ)
deriving DecidableEq, Repr

/-- Column `i` of a data frame, read top to bottom. -/
def DataDF.colVec (df : DataDF) (i : Nat) : List ℚ :=
  df.data.map fun r => r.getD i 0

/-- A parsed gct: the numeric matrix plus row and column metadata tables. -/
structure GCToo where
  data_df : DataDF
  row_metadata_df : MetadataDF
  col_metadata_df : MetadataDF
deriving DecidableEq, Repr

/-- One axis entry of a multi-index data frame: the sample identifier plus
all metadata fields attached to that axis position. -/
structure MISample where
  id : String
  meta : List (String × String)
deriving DecidableEq, Repr

instance : Inhabited MISample := ⟨⟨"", []⟩⟩

/-- A multi-index data frame: both axes carry full metadata tuples. -/
structure MIDf where
  rows : List MISample
  cols : List MISample
  data : List (List ℚ)
deriving DecidableEq, Repr

/-- Cell `(i, j)` of a multi-index data frame. -/
def MIDf.cell (df : MIDf) (i j : Nat) : ℚ :=
  (df.data.getD i []).getD j 0

/-- A connectivity matrix: rows are target cohorts, columns query cohorts;
a cell is `none` when the cohort pair had an empty foreground or background
distribution. -/
structure ConnDF where
  rowIds : List String
  colIds : List String
  data : List (List (Option ℚ))
deriving DecidableEq, Repr

/-- Module constant of the source (line 30). -/
def SIMILARITY_METRIC_FIELD : String := "similarity_metric"

/-- Module constant of the source (line 31). -/
def CONNECTIVITY_METRIC_FIELD : String := "connectivity_metric"

/-- Module constant of the source (line 32). -/
def QUERY_FIELD_NAME : String := "query_field"

/-- Module constant of the source (line 33). -/
def TARGET_FIELD_NAME : String := "target_field"

/-- Module constant of the source (line 34). -/
def SEPARATOR : String := ":"

/-- The Python `choices` list of `--similarity_metric` in the argument parser
(source lines 56-58). -/
def SIMILARITY_METRIC_CHOICES : List String := ["spearman", "pearson"]

/-- The Python `choices` list of `--connectivity_metric` in the argument
parser (source lines 59-61). -/
def CONNECTIVITY_METRIC_CHOICES : List String := ["ks_test", "percentile_score"]

/-- The type of a correlation kernel: metric name and two aligned profile
vectors in, a coefficient out.  The claims under verification concern the
shape and labelling of the similarity matrix, never the numeric value of a
single coefficient, so the kernel is kept as a parameter of the embedding. -/
def CorrKernel := String → List ℚ → List ℚ → ℚ

/-- Modelled from the spec: `steep.compute_similarity_bw_two_dfs` (module
`steep.py`, not among the sources).  Spec 4.1: given matrix A
(features x n samples) and matrix B (features x m samples) with identical
feature sets, produce an n x m matrix where cell (i, j) is the correlation
between column i of A and column j of B; rows of the result carry A's sample
identity, columns carry B's; it fails if the feature sets (row index) of A
and B do not match. -/
def compute_similarity_bw_two_dfs (corr : CorrKernel) (df1 df2 : DataDF)
    (similarity_metric : String) : Except String DataDF :=
  if df1.rowIds = df2.rowIds then
    Except.ok
      { rowIds := df1.colIds
        colIds := df2.colIds
        data := (List.range df1.colIds.length).map fun i =>
          (List.range df2.colIds.length).map fun j =>
            corr similarity_metric (df1.colVec i) (df2.colVec j) }
  else
    Except.error "row indices of df1 and df2 are not the same"

/-- The metadata tuple of sample `k` of a metadata table (positional
alignment of metadata rows with the matrix axis). -/
def MetadataDF.sampleMeta (md : MetadataDF) (k : Nat) : List (String × String) :=
  md.cols.map fun c => (c.1, c.2.getD k "")

/-- Axis entries of a multi-index data frame: each axis label paired with
its metadata fields. -/
def mkSamples (ids : List String) (md : MetadataDF) : List MISample :=
  ids.enum.map fun p => ⟨p.2, md.sampleMeta p.1⟩

/-- Modelled from the spec: the `multi_index_df` view of a gct
(`GCToo.py`, not among the sources).  Spec 6: a flattened view of the same
structure where the axis labels carry the metadata tuples. -/
def mkMultiIndex (data : DataDF) (row_md col_md : MetadataDF) : MIDf :=
  { rows := mkSamples data.rowIds row_md
    cols := mkSamples data.colIds col_md
    data := data.data }

/-- The `multi_index_df` attribute of a parsed gct. -/
def GCToo.multi_index_df (g : GCToo) : MIDf :=
  mkMultiIndex g.data_df g.row_metadata_df g.col_metadata_df

/-- Modelled from the spec: composite cohort key construction
(`sip.py`, not among the sources).  Spec 4.2: concatenate the values of the
given metadata fields with the separator, in the given field order; fail if
any requested field is absent. -/
def compositeKey (fields : List String) (meta : List (String × String))
    (sep : String) : Except String String :=
  (fields.mapM fun f =>
    match meta.lookup f with
    | some v => Except.ok v
    | none => Except.error ("field not in metadata: " ++ f)).map
      (String.intercalate sep)

/-- Modelled from the spec: relabelling of one axis by composite cohort keys
(`sip.py`, not among the sources).  The key is stored as an additional
metadata field under the aggregated field's name (spec 4.2: the keys become
the new axis labels, "replacing or augmenting the raw sample identifiers";
the raw identifier is kept so that diagonal self-pairs remain detectable). -/
def relabelAxis (samples : List MISample) (fields : List String)
    (fieldName sep : String) : Except String (List MISample) :=
  samples.mapM fun s =>
    (compositeKey fields s.meta sep).map fun k => ⟨s.id, s.meta ++ [(fieldName, k)]⟩

/-- The sort key of an axis entry: the value of the aggregated field. -/
def sortKey (fieldName : String) (s : MISample) : String :=
  (s.meta.lookup fieldName).getD ""

/-- Sort the row axis (and the data rows with it) by the aggregated field. -/
def MIDf.sortRowsByField (df : MIDf) (fieldName : String) : MIDf :=
  let pairs := df.rows.zip df.data
  let sorted := List.insertionSort
    (fun a b => strLe (sortKey fieldName a.1) (sortKey fieldName b.1) = true) pairs
  { rows := sorted.map Prod.fst, cols := df.cols, data := sorted.map Prod.snd }

/-- Sort the column axis (and the data columns with it) by the aggregated
field. -/
def MIDf.sortColsByField (df : MIDf) (fieldName : String) : MIDf :=
  let pairs := (List.range df.cols.length).map fun j =>
    (df.cols.getD j default, df.data.map fun r => r.getD j 0)
  let sorted := List.insertionSort
    (fun a b => strLe (sortKey fieldName a.1) (sortKey fieldName b.1) = true) pairs
  { rows := df.rows
    cols := sorted.map Prod.fst
    data := (List.range df.rows.length).map fun i =>
      sorted.map fun p => p.2.getD i 0 }

/-- Modelled from the spec: `sip.prepare_multi_index_dfs` (module `sip.py`,
not among the sources).  Spec 4.2 and the orchestration comment (source
lines 110-111): create an aggregated metadata field for index and columns of
both gcts and sort by that field.  The test matrix's column axis (the
external/query samples) is aggregated under `query_field_name` with the query
field list, its row axis (the internal/target samples) under
`target_field_name` with the target field list; the background matrix's two
axes share the background field list (spec 3) and are both aggregated under
`target_field_name`, the field name by which the orchestration groups the
background matrix downstream. -/
def prepare_multi_index_dfs (test_mi bg_mi : MIDf)
    (fields_to_aggregate_in_test_gct_queries fields_to_aggregate_in_test_gct_targets
      fields_to_aggregate_in_bg_gct : List String)
    (query_field_name target_field_name sep : String) :
    Except String (MIDf × MIDf) := do
  let testCols ← relabelAxis test_mi.cols fields_to_aggregate_in_test_gct_queries
    query_field_name sep
  let testRows ← relabelAxis test_mi.rows fields_to_aggregate_in_test_gct_targets
    target_field_name sep
  let bgRows ← relabelAxis bg_mi.rows fields_to_aggregate_in_bg_gct
    target_field_name sep
  let bgCols ← relabelAxis bg_mi.cols fields_to_aggregate_in_bg_gct
    target_field_name sep
  let test_df := (MIDf.sortColsByField ⟨testRows, testCols, test_mi.data⟩
    query_field_name).sortRowsByField target_field_name
  let bg_df := (MIDf.sortColsByField ⟨bgRows, bgCols, bg_mi.data⟩
    target_field_name).sortRowsByField target_field_name
  Except.ok (test_df, bg_df)

/-- Whether the set of row keys of a multi-index data frame equals the set of
its column keys (each key being the full axis tuple: identifier plus
metadata). -/
def axisSetEq (df : MIDf) : Bool :=
  (df.rows.all fun s => decide (s ∈ df.cols)) &&
    (df.cols.all fun s => decide (s ∈ df.rows))

/-- Modelled from the spec: `sip.check_symmetry` (module `sip.py`, not among
the sources).  Spec 4.3: given a similarity matrix, return true iff the set
of its row keys equals the set of its column keys; applied to the test
matrix and to the background matrix, giving
`(is_test_df_sym, is_bg_df_sym)`. -/
def check_symmetry (test_mi bg_mi : MIDf) : Bool × Bool :=
  (axisSetEq test_mi, axisSetEq bg_mi)

/-- Arithmetic mean of a list of rationals (0 for the empty list). -/
def listMean (l : List ℚ) : ℚ := l.sum / l.length

/-- Median of a list of rationals: middle element of the sorted list, or the
average of the two middle elements (0 for the empty list). -/
def listMedian (l : List ℚ) : ℚ :=
  let s := List.insertionSort (fun a b : ℚ => a ≤ b) l
  let n := l.length
  if n = 0 then 0
  else if n % 2 = 1 then s.getD (n / 2) 0
  else (s.getD (n / 2 - 1) 0 + s.getD (n / 2) 0) / 2

/-- Percentile rank of `x` within the population `bg`: the percentage of
background values that are at most `x`. -/
def percentileOfScore (bg : List ℚ) (x : ℚ) : ℚ :=
  100 * (bg.countP fun b => b ≤ x) / bg.length

/-- Modelled from the spec: the signed percentile-score connectivity
(`sip.py`, not among the sources).  Spec 4.4: the percentile rank of the
mean of the foreground set within the background population, scaled to
[-100, 100] by centering at the background's midpoint (50th percentile
treated as zero connectivity). -/
def percentileScoreSigned (fg bg : List ℚ) : ℚ :=
  2 * (percentileOfScore bg (listMean fg) - 50)

/-- Sign of a rational, as a rational. -/
def qsgn (x : ℚ) : ℚ := if 0 < x then 1 else if x < 0 then -1 else 0

/-- Empirical distribution function of a sample at `x`. -/
def ecdfAt (l : List ℚ) (x : ℚ) : ℚ :=
  (l.countP fun v => v ≤ x) / l.length

/-- Two-sample Kolmogorov-Smirnov statistic: the largest gap between the two
empirical distribution functions over the pooled sample points. -/
def ksStat (fg bg : List ℚ) : ℚ :=
  ((fg ++ bg).map fun v => |ecdfAt fg v - ecdfAt bg v|).foldl max 0

/-- Modelled from the spec: the signed ks-test connectivity (`sip.py`, not
among the sources).  Spec 4.4: the sign of (mean(foreground) -
median(background)), applied to the unsigned test statistic. -/
def ksTestSigned (fg bg : List ℚ) : ℚ :=
  qsgn (listMean fg - listMedian bg) * ksStat fg bg

/-- Modelled from the spec: the (unsigned, signed) connectivity score of one
cohort pair (`sip.py`, not among the sources).  Spec 4.4: `none` when the
foreground or the background set is empty (an empty/NaN cell that does not
abort the run); otherwise the selected metric's unsigned and signed values. -/
def scorePair (metric : String) (fg bg : List ℚ) : Option (ℚ × ℚ) :=
  if fg.isEmpty || bg.isEmpty then none
  else if metric = "ks_test" then some (ksStat fg bg, ksTestSigned fg bg)
  else if metric = "percentile_score" then
    some (|percentileScoreSigned fg bg|, percentileScoreSigned fg bg)
  else none

/-- All index pairs (i, j) with i < n and j < m, row-major. -/
def indexPairs (n m : Nat) : List (Nat × Nat) :=
  (List.range n).foldr (fun i acc => ((List.range m).map fun j => (i, j)) ++ acc) []

/-- Modelled from the spec: the foreground set of a cohort pair (q, t)
(`sip.py`, not among the sources).  Spec 4.4 step 1: all cell values of the
test matrix whose row key is t and whose column key is q, excluding diagonal
self-pairs (same underlying sample) when the comparison is a
self-comparison. -/
def fgVals (test : MIDf) (query_field target_field : String) (t q : String)
    (is_sym : Bool) : List ℚ :=
  (indexPairs test.rows.length test.cols.length).filterMap fun p =>
    let r := test.rows.getD p.1 default
    let c := test.cols.getD p.2 default
    if (r.meta.lookup target_field == some t) && (c.meta.lookup query_field == some q)
        && !(is_sym && r.id == c.id) then
      some (test.cell p.1 p.2)
    else none

/-- Modelled from the spec: the background set for target cohort t
(`sip.py`, not among the sources).  Spec 3 and 4.4 step 2: the background
matrix is the self-similarity of the reference samples, so only the strict
upper triangle is used (one of each mirrored pair, no diagonal entries);
matching is by matching target cohort label on the grouping field when the
background cohort structure permits it, otherwise the full off-diagonal
background population is used as a global null. -/
def bgVals (bg : MIDf) (bg_field : String) (t : String) : List ℚ :=
  let upper := (indexPairs bg.rows.length bg.cols.length).filter fun p => p.1 < p.2
  let matched := upper.filter fun p =>
    ((bg.rows.getD p.1 default).meta.lookup bg_field == some t) &&
      ((bg.cols.getD p.2 default).meta.lookup bg_field == some t)
  let chosen := if matched.isEmpty then upper else matched
  chosen.map fun p => bg.cell p.1 p.2

/-- The distinct target cohorts observed on the row axis of the test
matrix. -/
def targetCohorts (test : MIDf) (target_field : String) : List String :=
  (test.rows.filterMap fun s => s.meta.lookup target_field).dedup

/-- The distinct query cohorts observed on the column axis of the test
matrix. -/
def queryCohorts (test : MIDf) (query_field : String) : List String :=
  (test.cols.filterMap fun s => s.meta.lookup query_field).dedup

/-- Modelled from the spec: `sip.compute_connectivities` (module `sip.py`,
not among the sources).  Spec 4.4: given the relabeled test and background
matrices, the grouping field names, the connectivity metric and the test
symmetry flag, produce one unsigned and one signed connectivity value per
(query cohort, target cohort) pair present in the test matrix; the outputs
have rows = target cohorts and columns = query cohorts (spec 4.4 Output).
The signature mirrors the call in the orchestration (source lines 123-125):
a single symmetry flag reaches the computation. -/
def compute_connectivities (test bg : MIDf)
    (query_field target_field bg_field metric : String)
    (is_test_df_sym : Bool) : ConnDF × ConnDF :=
  let targets := targetCohorts test target_field
  let queries := queryCohorts test query_field
  let cellAt := fun (t q : String) =>
    scorePair metric (fgVals test query_field target_field t q is_test_df_sym)
      (bgVals bg bg_field t)
  ( { rowIds := targets, colIds := queries
      data := targets.map fun t => queries.map fun q => (cellAt t q).map Prod.fst }
  , { rowIds := targets, colIds := queries
      data := targets.map fun t => queries.map fun q => (cellAt t q).map Prod.snd } )

set_option linter.unusedVariables false in
/-- Modelled from the spec: `GCToo.multi_index_df_to_component_dfs`
(module `GCToo.py`, not among the sources).  Spec 6: convert the flattened
multi-level view back into a data matrix plus a row-metadata and a
column-metadata table; `rid` and `cid` name the levels that become the row
and column identifiers.  A connectivity matrix carries one level per axis
(the aggregated cohort field), so the recovered metadata tables have no
remaining metadata columns. -/
def multi_index_df_to_component_dfs (df : ConnDF) (rid cid : String) :
    ConnDF × MetadataDF × MetadataDF :=
  (df, { rowIds := df.rowIds, cols := [] }, { rowIds := df.colIds, cols := [] })

/-- Modelled from the spec: `sip.add_connectivity_metric_to_metadata`
(module `sip.py`, not among the sources).  Spec 4.5: given a metadata table
and a metric name, add (or overwrite) one fixed-name column holding the
metric name as a constant for every row; no other field is touched. -/
def add_connectivity_metric_to_metadata (metadata_df : MetadataDF)
    (connectivity_metric connectivity_metric_field : String) : MetadataDF :=
  metadata_df.setColumnConstant connectivity_metric_field connectivity_metric

/-- The type of the connectivity computation as the orchestration calls it
(source lines 123-125): test matrix, background matrix, query field name,
target field name, background field name, connectivity metric, and one
symmetry flag. -/
def ConnectivityFn : Type :=
  MIDf → MIDf → String → String → String → String → Bool → ConnDF × ConnDF

/-- The connectivity call of `main` (source lines 119-125): the pair
returned by `sip.check_symmetry` is destructured into
`(is_test_df_sym, is_bg_df_sym)`, and `sip.compute_connectivities` is called
on the prepared matrices with the module field-name constants, the
background grouping field being `TARGET_FIELD_NAME`, and the flag
`is_test_df_sym`. -/
def main_connectivity_call (cc : ConnectivityFn) (test_df bg_df : MIDf)
    (connectivity_metric : String) (symFlags : Bool × Bool) : ConnDF × ConnDF :=
  let is_test_df_sym := symFlags.1
  cc test_df bg_df QUERY_FIELD_NAME TARGET_FIELD_NAME TARGET_FIELD_NAME
    connectivity_metric is_test_df_sym

/-- The configuration that reaches `main`: the two metric names and the three
field lists (source lines 80, 90-92, 112-117, 123-125). -/
structure MainArgs where
  similarity_metric : String
  connectivity_metric : String
  fields_to_aggregate_in_test_gct_queries : List String
  fields_to_aggregate_in_test_gct_targets : List String
  fields_to_aggregate_in_bg_gct : List String
deriving DecidableEq, Repr

/-- Everything `main` computes, including the state of the parsed gcts'
column-metadata objects after the run (the file outputs plus the observable
in-memory effects). -/
structure RunResult where
  sim_df : DataDF
  row_metadata_for_sim_df : MetadataDF
  col_metadata_for_sim_df : MetadataDF
  internal_col_metadata_df : MetadataDF
  external_col_metadata_df : MetadataDF
  sim_multi_index_df : MIDf
  bg_multi_index_df : MIDf
  test_df : MIDf
  bg_df : MIDf
  is_test_df_sym : Bool
  is_bg_df_sym : Bool
  conn_mi_df : ConnDF
  signed_conn_mi_df : ConnDF
  signed_data_df : ConnDF
  signed_row_metadata_df : MetadataDF
  signed_col_metadata_df : MetadataDF
deriving DecidableEq, Repr

/-- Embedding of `main` (source lines 80-136), with explicit Python object
semantics for the metadata tables.  On lines 95-96 the names
`row_metadata_for_sim_df` and `col_metadata_for_sim_df` are bound to the very
objects `internal_gct.col_metadata_df` and `external_gct.col_metadata_df`
(no copy), so the in-place column assignments of lines 99-100 mutate the
parsed gcts' column metadata as well: after the run, the gct objects and the
similarity-gct metadata denote the same updated tables, which the result
record exposes under both names.  File reading and writing are out of scope;
the parsed gcts and the correlation kernel are parameters. -/
def mainRun (corr : CorrKernel) (external_gct internal_gct bg_gct : GCToo)
    (args : MainArgs) : Except String RunResult :=
  match compute_similarity_bw_two_dfs corr internal_gct.data_df external_gct.data_df
      args.similarity_metric with
  | Except.error e => Except.error e
  | Except.ok sim_df =>
    let row_metadata_for_sim_df :=
      internal_gct.col_metadata_df.setColumnConstant SIMILARITY_METRIC_FIELD
        args.similarity_metric
    let col_metadata_for_sim_df :=
      external_gct.col_metadata_df.setColumnConstant SIMILARITY_METRIC_FIELD
        args.similarity_metric
    let sim_multi_index_df :=
      mkMultiIndex sim_df row_metadata_for_sim_df col_metadata_for_sim_df
    let bg_multi_index_df := bg_gct.multi_index_df
    match prepare_multi_index_dfs sim_multi_index_df bg_multi_index_df
        args.fields_to_aggregate_in_test_gct_queries
        args.fields_to_aggregate_in_test_gct_targets
        args.fields_to_aggregate_in_bg_gct
        QUERY_FIELD_NAME TARGET_FIELD_NAME SEPARATOR with
    | Except.error e => Except.error e
    | Except.ok (test_df, bg_df) =>
      let symFlags := check_symmetry sim_multi_index_df bg_multi_index_df
      let conn := main_connectivity_call compute_connectivities test_df bg_df
        args.connectivity_metric symFlags
      let comps := multi_index_df_to_component_dfs conn.2 TARGET_FIELD_NAME
        QUERY_FIELD_NAME
      let signed_col_metadata_df := add_connectivity_metric_to_metadata comps.2.2
        args.connectivity_metric CONNECTIVITY_METRIC_FIELD
      let signed_row_metadata_df := add_connectivity_metric_to_metadata comps.2.1
        args.connectivity_metric CONNECTIVITY_METRIC_FIELD
      Except.ok
        { sim_df := sim_df
          row_metadata_for_sim_df := row_metadata_for_sim_df
          col_metadata_for_sim_df := col_metadata_for_sim_df
          internal_col_metadata_df := row_metadata_for_sim_df
          external_col_metadata_df := col_metadata_for_sim_df
          sim_multi_index_df := sim_multi_index_df
          bg_multi_index_df := bg_multi_index_df
          test_df := test_df
          bg_df := bg_df
          is_test_df_sym := symFlags.1
          is_bg_df_sym := symFlags.2
          conn_mi_df := conn.1
          signed_conn_mi_df := conn.2
          signed_data_df := comps.1
          signed_row_metadata_df := signed_row_metadata_df
          signed_col_metadata_df := signed_col_metadata_df }

/-- The command line as it reaches the argument parser: the two metric
strings and the three field lists (the other arguments are file paths and
logging, out of scope). -/
structure CliArgs where
  similarity_metric : String
  connectivity_metric : String
  fields_to_aggregate_in_test_gct_queries : List String
  fields_to_aggregate_in_test_gct_targets : List String
  fields_to_aggregate_in_bg_gct : List String
deriving DecidableEq, Repr

/-- The metric validation performed by the argument parser (source lines
56-61): argparse rejects a `--similarity_metric` outside its `choices` list
and a `--connectivity_metric` outside its `choices` list before `main` is
entered. -/
def parse_args (a : CliArgs) : Except String MainArgs :=
  if SIMILARITY_METRIC_CHOICES.contains a.similarity_metric then
    if CONNECTIVITY_METRIC_CHOICES.contains a.connectivity_metric then
      Except.ok
        { similarity_metric := a.similarity_metric
          connectivity_metric := a.connectivity_metric
          fields_to_aggregate_in_test_gct_queries :=
            a.fields_to_aggregate_in_test_gct_queries
          fields_to_aggregate_in_test_gct_targets :=
            a.fields_to_aggregate_in_test_gct_targets
          fields_to_aggregate_in_bg_gct := a.fields_to_aggregate_in_bg_gct }
    else Except.error "argument --connectivity_metric: invalid choice"
  else Except.error "argument --similarity_metric: invalid choice"

/-- The script entry point (source lines 139-143): parse the arguments, then
run `main`; a parse error aborts before `main` is entered. -/
def runScript (corr : CorrKernel) (external_gct internal_gct bg_gct : GCToo)
    (a : CliArgs) : Except String RunResult :=
  match parse_args a with
  | Except.error e => Except.error e
  | Except.ok args => mainRun corr external_gct internal_gct bg_gct args

deriving instance DecidableEq for Except

/-- Membership test of an `Except` value, kernel-reducible. -/
def exceptIsOk {ε α : Type} : Except ε α → Bool
  | Except.ok _ => true
  | Except.error _ => false

/-- Whether the set of composite cohort keys on the row axis (under the row
grouping field) equals the set of composite cohort keys on the column axis
(under the column grouping field). -/
def cohortKeySetEq (df : MIDf) (rowField colField : String) : Bool :=
  let rks := df.rows.filterMap fun s => s.meta.lookup rowField
  let cks := df.cols.filterMap fun s => s.meta.lookup colField
  (rks.all fun k => cks.contains k) && (cks.all fun k => rks.contains k)

/-- What claim C2 asserts the symmetry flags to be: symmetry judged on the
relabeled matrices produced by `prepare_multi_index_dfs`, whose axes are the
composite cohort keys; each flag is true iff the set of composite row keys
equals the set of composite column keys.  This definition follows the claim's
words, for comparison with the embedded orchestration. -/
def symFlagsFromRelabeled (test_mi bg_mi : MIDf)
    (fields_q fields_t fields_bg : List String) :
    Except String (Bool × Bool) :=
  (prepare_multi_index_dfs test_mi bg_mi fields_q fields_t fields_bg
    QUERY_FIELD_NAME TARGET_FIELD_NAME SEPARATOR).map fun p =>
      (cohortKeySetEq p.1 TARGET_FIELD_NAME QUERY_FIELD_NAME,
        cohortKeySetEq p.2 TARGET_FIELD_NAME TARGET_FIELD_NAME)

/-- The default field list of the argument parser (source lines 65-73). -/
def cFields : List String := ["pert_id", "cell_id", "pert_time"]

/-- A sample metadata tuple used by the concrete scenarios. -/
def cMeta : List (String × String) :=
  [("pert_id", "A"), ("cell_id", "B"), ("pert_time", "1")]

/-- A concrete correlation kernel for the concrete scenarios. -/
def cCorr : CorrKernel := fun _ _ _ => 1

/-- Concrete internal (reference) gct: one probe, one sample. -/
def cInternal : GCToo :=
  { data_df := { rowIds := ["p1"], colIds := ["ref1"], data := [[3]] }
    row_metadata_df := { rowIds := ["p1"], cols := [] }
    col_metadata_df :=
      { rowIds := ["ref1"]
        cols := [("pert_id", ["A"]), ("cell_id", ["B"]), ("pert_time", ["1"])] } }

/-- Concrete external (test) gct: one probe, one sample. -/
def cExternal : GCToo :=
  { data_df := { rowIds := ["p1"], colIds := ["ext1"], data := [[4]] }
    row_metadata_df := { rowIds := ["p1"], cols := [] }
    col_metadata_df :=
      { rowIds := ["ext1"]
        cols := [("pert_id", ["A"]), ("cell_id", ["B"]), ("pert_time", ["1"])] } }

/-- Concrete background similarity gct: two reference samples of one
cohort. -/
def cBg : GCToo :=
  { data_df := { rowIds := ["ref1", "ref2"], colIds := ["ref1", "ref2"]
                 data := [[0, 7], [7, 0]] }
    row_metadata_df :=
      { rowIds := ["ref1", "ref2"]
        cols := [("pert_id", ["A", "A"]), ("cell_id", ["B", "B"]),
          ("pert_time", ["1", "1"])] }
    col_metadata_df :=
      { rowIds := ["ref1", "ref2"]
        cols := [("pert_id", ["A", "A"]), ("cell_id", ["B", "B"]),
          ("pert_time", ["1", "1"])] } }

/-- Concrete configuration with the parser's default field lists. -/
def cArgs : MainArgs :=
  { similarity_metric := "spearman"
    connectivity_metric := "percentile_score"
    fields_to_aggregate_in_test_gct_queries := cFields
    fields_to_aggregate_in_test_gct_targets := cFields
    fields_to_aggregate_in_bg_gct := cFields }

/-- A concrete test multi-index matrix whose row label (an internal sample)
differs from its column label (an external sample) while both carry the same
cohort metadata. -/
def c2TestMi : MIDf :=
  { rows := [⟨"ref1", cMeta⟩], cols := [⟨"ext1", cMeta⟩], data := [[1]] }

/-- A concrete background multi-index matrix with identical row and column
labels. -/
def c2BgMi : MIDf :=
  { rows := [⟨"ref1", cMeta⟩], cols := [⟨"ref1", cMeta⟩], data := [[1]] }

/-- A concrete relabeled test matrix for the percentile-score scenario. -/
def cT8 : MIDf :=
  { rows := [⟨"r", [("target_field", "T")]⟩]
    cols := [⟨"c", [("query_field", "Q")]⟩]
    data := [[1]] }

/-- A concrete relabeled background matrix for the percentile-score
scenario. -/
def cB8 : MIDf :=
  { rows := [⟨"x", [("target_field", "T")]⟩]
    cols := [⟨"x", [("target_field", "T")]⟩, ⟨"y", [("target_field", "T")]⟩]
    data := [[5, 7]] }

/-- Two distinguishable connectivity outputs, and a probe connectivity
computation that returns the first one exactly when the symmetry flag it
receives is true. -/
def flagProbeOutTrue : ConnDF × ConnDF :=
  (⟨["t"], ["t"], [[some 1]]⟩, ⟨["t"], ["t"], [[some 1]]⟩)

/-- The probe output for a received flag of false. -/
def flagProbeOutFalse : ConnDF × ConnDF :=
  (⟨["f"], ["f"], [[none]]⟩, ⟨["f"], ["f"], [[none]]⟩)

/-- A connectivity computation that reports which symmetry flag it was
given. -/
def flagProbe : ConnectivityFn :=
  fun _ _ _ _ _ _ b => if b then flagProbeOutTrue else flagProbeOutFalse

/-- Setting a column never changes the row identifiers of a metadata
table. -/
theorem rowIds_setColumnConstant (df : MetadataDF) (field val : String) :
    (df.setColumnConstant field val).rowIds = df.rowIds := by
  unfold MetadataDF.setColumnConstant
  split <;> rfl

/-- Replacing the value stored under one key leaves lookups of any other key
unchanged. -/
theorem lookup_map_overwrite_of_ne (g field : String) (val : List String)
    (l : List (String × List String)) (hg : g ≠ field) :
    List.lookup g (l.map fun c => if c.1 = field then (c.1, val) else c)
      = List.lookup g l := by
  induction l with
  | nil => rfl
  | cons c cs ih =>
    obtain ⟨k, w⟩ := c
    rw [List.map_cons]
    by_cases hc : k = field
    · subst hc
      have hite : (if (k, w).1 = k then ((k, w).1, val) else (k, w)) = (k, val) := by simp
      rw [hite]
      have hz : (g == k) = false := by simp [hg]
      simp [List.lookup, hz, ih]
    · have hite : (if (k, w).1 = field then ((k, w).1, val) else (k, w)) = (k, w) := by
        simp [hc]
      rw [hite]
      simp only [List.lookup]
      cases hb : (g == k) with
      | false => exact ih
      | true => rfl

/-- Appending a binding for a different key leaves lookups unchanged. -/
theorem lookup_append_single_of_ne (g field : String) (val : List String)
    (l : List (String × List String)) (hg : g ≠ field) :
    List.lookup g (l ++ [(field, val)]) = List.lookup g l := by
  induction l with
  | nil =>
    have hz : (g == field) = false := by simp [hg]
    simp [List.lookup, hz]
  | cons c cs ih =>
    obtain ⟨k, w⟩ := c
    simp only [List.cons_append, List.lookup]
    cases hb : (g == k) with
    | false => exact ih
    | true => rfl

/-- Looking up a column other than the one being set is unaffected. -/
theorem getCol_setColumnConstant_of_ne (df : MetadataDF) (field val g : String)
    (hg : g ≠ field) : (df.setColumnConstant field val).getCol g = df.getCol g := by
  unfold MetadataDF.setColumnConstant MetadataDF.getCol
  split
  · exact lookup_map_overwrite_of_ne g field _ df.cols hg
  · exact lookup_append_single_of_ne g field _ df.cols hg

/-- Replacing the value stored under a key that is present yields that value
on lookup. -/
theorem lookup_map_overwrite_self (field : String) (val : List String)
    (l : List (String × List String)) (hmem : (l.map Prod.fst).contains field = true) :
    List.lookup field (l.map fun c => if c.1 = field then (c.1, val) else c)
      = some val := by
  induction l with
  | nil => simp at hmem
  | cons c cs ih =>
    obtain ⟨k, w⟩ := c
    rw [List.map_cons]
    by_cases hc : k = field
    · subst hc
      have hite : (if (k, w).1 = k then ((k, w).1, val) else (k, w)) = (k, val) := by simp
      rw [hite]
      simp [List.lookup]
    · have hite : (if (k, w).1 = field then ((k, w).1, val) else (k, w)) = (k, w) := by
        simp [hc]
      rw [hite]
      have hz : (field == k) = false := by
        simp [beq_iff_eq]
        exact fun h => hc h.symm
      have hmem2 : (cs.map Prod.fst).contains field = true := by
        simpa [List.contains, hz] using hmem
      simp [List.lookup, hz, ih hmem2]

/-- Looking the freshly appended column up yields the constant column. -/
theorem lookup_append_single_self (field : String) (val : List String)
    (l : List (String × List String)) (hmem : (l.map Prod.fst).contains field = false) :
    List.lookup field (l ++ [(field, val)]) = some val := by
  induction l with
  | nil => simp [List.lookup]
  | cons c cs ih =>
    obtain ⟨k, w⟩ := c
    have hz : (field == k) = false := by
      rcases hb : (field == k) with _ | _
      · rfl
      · exfalso
        have hfk : field = k := by simpa [beq_iff_eq] using hb
        simp [List.contains, hfk] at hmem
    have hmem2 : (cs.map Prod.fst).contains field = false := by
      simpa [List.contains, hz] using hmem
    simp only [List.cons_append, List.lookup, hz]
    exact ih hmem2

/-- Setting a column makes that column the constant column of the right
length. -/
theorem getCol_setColumnConstant_self (df : MetadataDF) (field val : String) :
    (df.setColumnConstant field val).getCol field
      = some (List.replicate df.rowIds.length val) := by
  unfold MetadataDF.setColumnConstant MetadataDF.getCol
  split
  · exact lookup_map_overwrite_self field _ df.cols (by assumption)
  · have h : ¬ (df.cols.map Prod.fst).contains field = true := by assumption
    exact lookup_append_single_self field _ df.cols (by simpa using h)

/-- Inversion of a successful similarity computation: the feature axes
matched and the result is labelled by the two sample axes. -/
theorem compute_similarity_ok_elim (corr : CorrKernel) (df1 df2 : DataDF)
    (m : String) (sd : DataDF)
    (h : compute_similarity_bw_two_dfs corr df1 df2 m = Except.ok sd) :
    df1.rowIds = df2.rowIds ∧ sd.rowIds = df1.colIds ∧ sd.colIds = df2.colIds := by
  unfold compute_similarity_bw_two_dfs at h
  split at h
  · cases h
    exact ⟨by assumption, rfl, rfl⟩
  · cases h

/-- Inversion of a successful run of the pipeline: every field of the result
record is determined by the source's data flow. -/
theorem mainRun_ok_spec (corr : CorrKernel) (external_gct internal_gct bg_gct : GCToo)
    (args : MainArgs) (r : RunResult)
    (h : mainRun corr external_gct internal_gct bg_gct args = Except.ok r) :
    compute_similarity_bw_two_dfs corr internal_gct.data_df external_gct.data_df
        args.similarity_metric = Except.ok r.sim_df
    ∧ r.row_metadata_for_sim_df
        = internal_gct.col_metadata_df.setColumnConstant SIMILARITY_METRIC_FIELD
            args.similarity_metric
    ∧ r.col_metadata_for_sim_df
        = external_gct.col_metadata_df.setColumnConstant SIMILARITY_METRIC_FIELD
            args.similarity_metric
    ∧ r.internal_col_metadata_df = r.row_metadata_for_sim_df
    ∧ r.external_col_metadata_df = r.col_metadata_for_sim_df
    ∧ r.sim_multi_index_df
        = mkMultiIndex r.sim_df r.row_metadata_for_sim_df r.col_metadata_for_sim_df
    ∧ r.bg_multi_index_df = bg_gct.multi_index_df
    ∧ prepare_multi_index_dfs r.sim_multi_index_df r.bg_multi_index_df
        args.fields_to_aggregate_in_test_gct_queries
        args.fields_to_aggregate_in_test_gct_targets
        args.fields_to_aggregate_in_bg_gct
        QUERY_FIELD_NAME TARGET_FIELD_NAME SEPARATOR
        = Except.ok (r.test_df, r.bg_df)
    ∧ (r.is_test_df_sym, r.is_bg_df_sym)
        = check_symmetry r.sim_multi_index_df r.bg_multi_index_df
    ∧ (r.conn_mi_df, r.signed_conn_mi_df)
        = main_connectivity_call compute_connectivities r.test_df r.bg_df
            args.connectivity_metric
            (check_symmetry r.sim_multi_index_df r.bg_multi_index_df)
    ∧ r.signed_data_df
        = (multi_index_df_to_component_dfs r.signed_conn_mi_df TARGET_FIELD_NAME
            QUERY_FIELD_NAME).1
    ∧ r.signed_row_metadata_df
        = add_connectivity_metric_to_metadata
            (multi_index_df_to_component_dfs r.signed_conn_mi_df TARGET_FIELD_NAME
              QUERY_FIELD_NAME).2.1
            args.connectivity_metric CONNECTIVITY_METRIC_FIELD
    ∧ r.signed_col_metadata_df
        = add_connectivity_metric_to_metadata
            (multi_index_df_to_component_dfs r.signed_conn_mi_df TARGET_FIELD_NAME
              QUERY_FIELD_NAME).2.2
            args.connectivity_metric CONNECTIVITY_METRIC_FIELD := by
  unfold mainRun at h
  split at h
  · cases h
  · dsimp only at h
    split at h
    · cases h
    · cases h
      refine ⟨by assumption, rfl, rfl, rfl, rfl, rfl, rfl, ?_, rfl, rfl, rfl, rfl, rfl⟩
      assumption

/-- The signed percentile score lies in [-100, 100] whenever the background
population is non-empty. -/
theorem percentileScoreSigned_bounds (fg bg : List ℚ) (hbg : bg ≠ []) :
    -100 ≤ percentileScoreSigned fg bg ∧ percentileScoreSigned fg bg ≤ 100 := by
  unfold percentileScoreSigned percentileOfScore
  have hn : (0 : ℚ) < bg.length := by
    have hlen := List.length_pos.mpr hbg
    exact_mod_cast hlen
  have hc0 : (0 : ℚ) ≤ (bg.countP fun b => b ≤ listMean fg) :=
    Nat.cast_nonneg _
  have hcn : ((bg.countP fun b => b ≤ listMean fg : Nat) : ℚ) ≤ (bg.length : ℚ) := by
    exact_mod_cast List.countP_le_length _
  have hlo : (0 : ℚ) ≤ 100 * (bg.countP fun b => b ≤ listMean fg) / bg.length := by
    positivity
  have hhi : 100 * ((bg.countP fun b => b ≤ listMean fg : Nat) : ℚ) / bg.length ≤ 100 := by
    rw [div_le_iff₀ hn]
    nlinarith
  constructor
  · linarith
  · linarith

/-- Inversion of a defined percentile-score cell: the background was
non-empty and the pair is the absolute and the signed percentile score. -/
theorem scorePair_percentile_some (fg bg : List ℚ) (pr : ℚ × ℚ)
    (h : scorePair "percentile_score" fg bg = some pr) :
    bg ≠ [] ∧ pr = (|percentileScoreSigned fg bg|, percentileScoreSigned fg bg) := by
  unfold scorePair at h
  split at h
  · cases h
  · rw [if_neg (by decide), if_pos rfl] at h
    cases h
    constructor
    · intro hbg
      subst hbg
      simp_all
    · rfl

/-- Claim C1 (counterexample): with a probe connectivity computation that
reports the symmetry flag it receives, the connectivity call of `main` run
with `(is_test_df_sym, is_bg_df_sym) = (false, true)` behaves as if given
`false`: `is_bg_df_sym` is not passed into the computation, contradicting
the claim that both booleans are passed into and consumed by
`sip.compute_connectivities`. -/
theorem connectivity_call_ignores_bg_sym_flag_cex :
    main_connectivity_call flagProbe c2TestMi c2BgMi "ks_test" (false, true)
        = flagProbeOutFalse
    ∧ flagProbeOutFalse ≠ flagProbeOutTrue := by
  constructor
  · rfl
  · decide

/-- Claim C1 (amended): `sip.check_symmetry` is applied separately to the
test similarity matrix and to the background matrix, but of the two
resulting booleans only `is_test_df_sym` is passed into and consumed by
`sip.compute_connectivities`; the connectivity call is invariant under
`is_bg_df_sym`. -/
theorem connectivity_call_consumes_only_test_sym_flag (cc : ConnectivityFn)
    (test_mi bg_mi test_df bg_df : MIDf) (metric : String) (b1 b2 b2' : Bool) :
    check_symmetry test_mi bg_mi = (axisSetEq test_mi, axisSetEq bg_mi)
    ∧ main_connectivity_call cc test_df bg_df metric (b1, b2)
        = main_connectivity_call cc test_df bg_df metric (b1, b2')
    ∧ main_connectivity_call cc test_df bg_df metric (b1, b2)
        = cc test_df bg_df QUERY_FIELD_NAME TARGET_FIELD_NAME TARGET_FIELD_NAME
            metric b1 :=
  ⟨rfl, rfl, rfl⟩

/-- Claim C2 (counterexample): on a concrete run whose internal and external
sample identifiers differ while their cohort metadata coincides, the
symmetry flag `main` actually computes for the test matrix is false (it is
computed from the original multi-index matrices, source line 120), whereas
the flag computed from the relabeled matrices of `prepare_multi_index_dfs`,
as the claim states, would be true. -/
theorem sym_flags_not_from_relabeled_cex :
    check_symmetry c2TestMi c2BgMi = (false, true)
    ∧ (symFlagsFromRelabeled c2TestMi c2BgMi cFields cFields cFields).map Prod.fst
        = Except.ok true := by
  constructor
  · decide
  · decide

/-- Claim C2 (amended): the symmetry flags consumed by the connectivity
computation are computed by `sip.check_symmetry` from the original
multi-index matrices (`sim_gct.multi_index_df` and `bg_gct.multi_index_df`),
before the relabeling of `prepare_multi_index_dfs`; for each matrix the flag
is true iff the set of its row axis tuples equals the set of its column axis
tuples. -/
theorem sym_flags_from_original_multi_index (corr : CorrKernel)
    (external_gct internal_gct bg_gct : GCToo) (args : MainArgs) (r : RunResult)
    (h : mainRun corr external_gct internal_gct bg_gct args = Except.ok r) :
    (r.is_test_df_sym, r.is_bg_df_sym)
      = (axisSetEq r.sim_multi_index_df, axisSetEq r.bg_multi_index_df) :=
  (mainRun_ok_spec corr external_gct internal_gct bg_gct args r h).2.2.2.2.2.2.2.2.1

/-- Witness for the amended claim C2 at a concrete successful run. -/
theorem sym_flags_from_original_multi_index_witness :
    ∃ r, mainRun cCorr cExternal cInternal cBg cArgs = Except.ok r
      ∧ (r.is_test_df_sym, r.is_bg_df_sym)
          = (axisSetEq r.sim_multi_index_df, axisSetEq r.bg_multi_index_df) := by
  cases h : mainRun cCorr cExternal cInternal cBg cArgs with
  | ok r =>
      exact ⟨r, rfl,
        sym_flags_from_original_multi_index cCorr cExternal cInternal cBg cArgs r h⟩
  | error e =>
      have hok : exceptIsOk (mainRun cCorr cExternal cInternal cBg cArgs) = true := by
        decide
      rw [h] at hok
      exact absurd hok (by simp [exceptIsOk])

/-- Claim C3: in the connectivity computation of every run, the field name
used to group the background matrix is `TARGET_FIELD_NAME`, the same field
name as the test matrix's target axis, regardless of the configured field
lists. -/
theorem bg_grouping_field_is_target_field (corr : CorrKernel)
    (external_gct internal_gct bg_gct : GCToo) (args : MainArgs) (r : RunResult)
    (h : mainRun corr external_gct internal_gct bg_gct args = Except.ok r) :
    (r.conn_mi_df, r.signed_conn_mi_df)
      = compute_connectivities r.test_df r.bg_df QUERY_FIELD_NAME TARGET_FIELD_NAME
          TARGET_FIELD_NAME args.connectivity_metric r.is_test_df_sym := by
  obtain ⟨-, -, -, -, -, -, -, -, h9, h10, -, -, -⟩ :=
    mainRun_ok_spec corr external_gct internal_gct bg_gct args r h
  have hflag : (check_symmetry r.sim_multi_index_df r.bg_multi_index_df).1
      = r.is_test_df_sym := by
    rw [← h9]
  rw [h10]
  unfold main_connectivity_call
  rw [hflag]

/-- Witness for claim C3 at a concrete successful run. -/
theorem bg_grouping_field_is_target_field_witness :
    ∃ r, mainRun cCorr cExternal cInternal cBg cArgs = Except.ok r
      ∧ (r.conn_mi_df, r.signed_conn_mi_df)
          = compute_connectivities r.test_df r.bg_df QUERY_FIELD_NAME
              TARGET_FIELD_NAME TARGET_FIELD_NAME cArgs.connectivity_metric
              r.is_test_df_sym := by
  cases h : mainRun cCorr cExternal cInternal cBg cArgs with
  | ok r =>
      exact ⟨r, rfl,
        bg_grouping_field_is_target_field cCorr cExternal cInternal cBg cArgs r h⟩
  | error e =>
      have hok : exceptIsOk (mainRun cCorr cExternal cInternal cBg cArgs) = true := by
        decide
      rw [h] at hok
      exact absurd hok (by simp [exceptIsOk])

/-- Claim C4: the connectivity output matrices have rows indexed by the
target cohorts and columns indexed by the query cohorts of the test matrix,
the conversion to component data frames (rid = TARGET_FIELD_NAME,
cid = QUERY_FIELD_NAME) preserves that orientation, every cohort observed on
the respective axis of the test matrix appears, and the data grid covers the
full cross product (one cell, possibly empty, per pair). -/
theorem connectivity_output_orientation_and_coverage (test bg : MIDf)
    (qf tf bgf metric : String) (sym : Bool) :
    (compute_connectivities test bg qf tf bgf metric sym).2.rowIds
        = targetCohorts test tf
    ∧ (compute_connectivities test bg qf tf bgf metric sym).2.colIds
        = queryCohorts test qf
    ∧ (compute_connectivities test bg qf tf bgf metric sym).1.rowIds
        = targetCohorts test tf
    ∧ (compute_connectivities test bg qf tf bgf metric sym).1.colIds
        = queryCohorts test qf
    ∧ (multi_index_df_to_component_dfs
        (compute_connectivities test bg qf tf bgf metric sym).2 TARGET_FIELD_NAME
        QUERY_FIELD_NAME).1
        = (compute_connectivities test bg qf tf bgf metric sym).2
    ∧ (compute_connectivities test bg qf tf bgf metric sym).2.data.length
        = (targetCohorts test tf).length
    ∧ (∀ row ∈ (compute_connectivities test bg qf tf bgf metric sym).2.data,
        row.length = (queryCohorts test qf).length)
    ∧ (∀ t ∈ test.rows.filterMap fun s => s.meta.lookup tf,
        t ∈ (compute_connectivities test bg qf tf bgf metric sym).2.rowIds)
    ∧ (∀ q ∈ test.cols.filterMap fun s => s.meta.lookup qf,
        q ∈ (compute_connectivities test bg qf tf bgf metric sym).2.colIds) := by
  refine ⟨rfl, rfl, rfl, rfl, rfl, ?_, ?_, ?_, ?_⟩
  · simp [compute_connectivities]
  · intro row hrow
    simp only [compute_connectivities, List.mem_map] at hrow
    obtain ⟨t, -, rfl⟩ := hrow
    simp
  · intro t ht
    simp only [compute_connectivities]
    exact List.mem_dedup.mpr ht
  · intro q hq
    simp only [compute_connectivities]
    exact List.mem_dedup.mpr hq

/-- Witness for claim C4: the orientation equation and the coverage of an
observed cohort at a concrete input. -/
theorem connectivity_output_orientation_and_coverage_witness :
    (compute_connectivities cT8 cB8 "query_field" "target_field" "target_field"
        "ks_test" false).2.rowIds = targetCohorts cT8 "target_field"
    ∧ "T" ∈ (compute_connectivities cT8 cB8 "query_field" "target_field"
        "target_field" "ks_test" false).2.rowIds :=
  ⟨(connectivity_output_orientation_and_coverage cT8 cB8 "query_field"
      "target_field" "target_field" "ks_test" false).1,
    (connectivity_output_orientation_and_coverage cT8 cB8 "query_field"
      "target_field" "target_field" "ks_test" false).2.2.2.2.2.2.2.1 "T"
      (by decide)⟩

/-- Claim C5 (counterexample): on a concrete run, the column-metadata table
of the parsed internal gct is mutated by `main`: the alias
`row_metadata_for_sim_df = internal_gct.col_metadata_df` (source line 95)
makes the in-place assignment of line 99 add the `similarity_metric` column
to the gct's own table, so the table after the run differs from the parsed
one. -/
theorem main_mutates_parsed_gct_col_metadata_cex :
    (mainRun cCorr cExternal cInternal cBg cArgs).map
        (fun r => r.internal_col_metadata_df)
      = Except.ok (cInternal.col_metadata_df.setColumnConstant
          SIMILARITY_METRIC_FIELD "spearman")
    ∧ cInternal.col_metadata_df.setColumnConstant SIMILARITY_METRIC_FIELD
        "spearman" ≠ cInternal.col_metadata_df := by
  constructor
  · decide
  · decide

/-- Claim C5 (amended): `main` creates its derived outputs fresh, but it
does mutate the column-metadata tables of the parsed internal and external
gcts through the aliases of lines 95-96: each table gains (or has
overwritten) exactly the `similarity_metric` column, and no other field and
no row identifier of either table is added, removed, or overwritten. -/
theorem main_col_metadata_mutation_exact (corr : CorrKernel)
    (external_gct internal_gct bg_gct : GCToo) (args : MainArgs) (r : RunResult)
    (h : mainRun corr external_gct internal_gct bg_gct args = Except.ok r) :
    r.internal_col_metadata_df
        = internal_gct.col_metadata_df.setColumnConstant SIMILARITY_METRIC_FIELD
            args.similarity_metric
    ∧ r.external_col_metadata_df
        = external_gct.col_metadata_df.setColumnConstant SIMILARITY_METRIC_FIELD
            args.similarity_metric
    ∧ r.internal_col_metadata_df.rowIds = internal_gct.col_metadata_df.rowIds
    ∧ r.external_col_metadata_df.rowIds = external_gct.col_metadata_df.rowIds
    ∧ (∀ g, g ≠ SIMILARITY_METRIC_FIELD →
        r.internal_col_metadata_df.getCol g = internal_gct.col_metadata_df.getCol g
        ∧ r.external_col_metadata_df.getCol g
            = external_gct.col_metadata_df.getCol g) := by
  obtain ⟨-, h2, h3, h4, h5, -⟩ :=
    mainRun_ok_spec corr external_gct internal_gct bg_gct args r h
  rw [h4, h5, h2, h3]
  refine ⟨rfl, rfl, rowIds_setColumnConstant _ _ _, rowIds_setColumnConstant _ _ _,
    ?_⟩
  intro g hg
  exact ⟨getCol_setColumnConstant_of_ne _ _ _ g hg,
    getCol_setColumnConstant_of_ne _ _ _ g hg⟩

/-- Witness for the amended claim C5 at a concrete successful run, with the
frame condition instantiated at a concrete untouched field. -/
theorem main_col_metadata_mutation_exact_witness :
    ∃ r, mainRun cCorr cExternal cInternal cBg cArgs = Except.ok r
      ∧ r.internal_col_metadata_df
          = cInternal.col_metadata_df.setColumnConstant SIMILARITY_METRIC_FIELD
              cArgs.similarity_metric
      ∧ r.internal_col_metadata_df.getCol "pert_id"
          = cInternal.col_metadata_df.getCol "pert_id" := by
  cases h : mainRun cCorr cExternal cInternal cBg cArgs with
  | ok r =>
      have hm := main_col_metadata_mutation_exact cCorr cExternal cInternal cBg
        cArgs r h
      exact ⟨r, rfl, hm.1, (hm.2.2.2.2 "pert_id" (by decide)).1⟩
  | error e =>
      have hok : exceptIsOk (mainRun cCorr cExternal cInternal cBg cArgs) = true := by
        decide
      rw [h] at hok
      exact absurd hok (by simp [exceptIsOk])

/-- Claim C6: the metadata-annotation step adds (or overwrites) exactly one
fixed-name column holding the metric name as a constant for every row of the
given table, and changes no other field and no row identifier. -/
theorem metadata_annotation_adds_exactly_one_column (df : MetadataDF)
    (metric field : String) :
    (add_connectivity_metric_to_metadata df metric field).getCol field
        = some (List.replicate df.rowIds.length metric)
    ∧ (add_connectivity_metric_to_metadata df metric field).rowIds = df.rowIds
    ∧ ∀ g, g ≠ field →
        (add_connectivity_metric_to_metadata df metric field).getCol g
          = df.getCol g := by
  refine ⟨getCol_setColumnConstant_self df field metric,
    rowIds_setColumnConstant df field metric, ?_⟩
  intro g hg
  exact getCol_setColumnConstant_of_ne df field metric g hg

/-- Witness for claim C6 at a concrete metadata table, with the frame
condition instantiated at a concrete other field. -/
theorem metadata_annotation_adds_exactly_one_column_witness :
    (add_connectivity_metric_to_metadata cInternal.col_metadata_df "ks_test"
        CONNECTIVITY_METRIC_FIELD).getCol CONNECTIVITY_METRIC_FIELD
      = some (List.replicate cInternal.col_metadata_df.rowIds.length "ks_test")
    ∧ (add_connectivity_metric_to_metadata cInternal.col_metadata_df "ks_test"
        CONNECTIVITY_METRIC_FIELD).getCol "cell_id"
      = cInternal.col_metadata_df.getCol "cell_id" :=
  ⟨(metadata_annotation_adds_exactly_one_column cInternal.col_metadata_df
      "ks_test" CONNECTIVITY_METRIC_FIELD).1,
    (metadata_annotation_adds_exactly_one_column cInternal.col_metadata_df
      "ks_test" CONNECTIVITY_METRIC_FIELD).2.2 "cell_id" (by decide)⟩

/-- Claim C7: the similarity matrix of
`compute_similarity_bw_two_dfs(internal, external, metric)` carries the
internal (reference) samples' identity and metadata on its row axis and the
external (test) samples' identity and metadata on its column axis; in
`main`, the similarity gct's row metadata comes from the internal gct and
its column metadata from the external gct. -/
theorem similarity_axes_internal_rows_external_cols (corr : CorrKernel)
    (external_gct internal_gct bg_gct : GCToo) (args : MainArgs) (r : RunResult)
    (h : mainRun corr external_gct internal_gct bg_gct args = Except.ok r) :
    r.sim_df.rowIds = internal_gct.data_df.colIds
    ∧ r.sim_df.colIds = external_gct.data_df.colIds
    ∧ internal_gct.data_df.rowIds = external_gct.data_df.rowIds
    ∧ r.row_metadata_for_sim_df
        = internal_gct.col_metadata_df.setColumnConstant SIMILARITY_METRIC_FIELD
            args.similarity_metric
    ∧ r.col_metadata_for_sim_df
        = external_gct.col_metadata_df.setColumnConstant SIMILARITY_METRIC_FIELD
            args.similarity_metric
    ∧ r.sim_multi_index_df.rows = mkSamples r.sim_df.rowIds r.row_metadata_for_sim_df
    ∧ r.sim_multi_index_df.cols
        = mkSamples r.sim_df.colIds r.col_metadata_for_sim_df := by
  obtain ⟨h1, h2, h3, -, -, h6, -⟩ :=
    mainRun_ok_spec corr external_gct internal_gct bg_gct args r h
  obtain ⟨ha, hb, hc⟩ := compute_similarity_ok_elim _ _ _ _ _ h1
  refine ⟨hb, hc, ha, h2, h3, ?_, ?_⟩
  · rw [h6]
    rfl
  · rw [h6]
    rfl

/-- Witness for claim C7 at a concrete successful run. -/
theorem similarity_axes_internal_rows_external_cols_witness :
    ∃ r, mainRun cCorr cExternal cInternal cBg cArgs = Except.ok r
      ∧ r.sim_df.rowIds = cInternal.data_df.colIds
      ∧ r.sim_df.colIds = cExternal.data_df.colIds := by
  cases h : mainRun cCorr cExternal cInternal cBg cArgs with
  | ok r =>
      have hm := similarity_axes_internal_rows_external_cols cCorr cExternal
        cInternal cBg cArgs r h
      exact ⟨r, rfl, hm.1, hm.2.1⟩
  | error e =>
      have hok : exceptIsOk (mainRun cCorr cExternal cInternal cBg cArgs) = true := by
        decide
      rw [h] at hok
      exact absurd hok (by simp [exceptIsOk])

/-- Evaluation of the signed percentile-score connectivity matrix at the
concrete scenario: foreground [1] against background [7] gives signed score
-100. -/
theorem c8_signed_eval :
    (compute_connectivities cT8 cB8 "query_field" "target_field" "target_field"
        "percentile_score" false).2.data = [[some (-100)]] := by
  have htg : targetCohorts cT8 "target_field" = ["T"] := by
    norm_num [targetCohorts, cT8, List.filterMap, List.lookup, List.dedup]
  have hq : queryCohorts cT8 "query_field" = ["Q"] := by
    norm_num [queryCohorts, cT8, List.filterMap, List.lookup, List.dedup]
  have hfg : fgVals cT8 "query_field" "target_field" "T" "Q" false = [1] := by
    norm_num [fgVals, cT8, indexPairs, List.filterMap, List.lookup, MIDf.cell]
  have hbg : bgVals cB8 "target_field" "T" = [7] := by
    norm_num [bgVals, cB8, indexPairs, List.filter, List.lookup, MIDf.cell]
  have hsp : scorePair "percentile_score" ([1] : List ℚ) ([7] : List ℚ)
      = some (100, -100) := by
    unfold scorePair
    rw [if_neg (by decide), if_neg (by decide), if_pos rfl]
    have hv : percentileScoreSigned ([1] : List ℚ) ([7] : List ℚ) = -100 := by
      norm_num [percentileScoreSigned, percentileOfScore, listMean,
        List.countP, List.countP.go]
    rw [hv]
    norm_num
  simp only [compute_connectivities, htg, hq, List.map_cons, List.map_nil,
    hfg, hbg, hsp, Option.map_some']

/-- Claim C8: when the connectivity metric is percentile_score, every
defined cell of the unsigned or the signed connectivity output lies within
the closed interval [-100, 100] (cells with an empty foreground or
background set are `none` and emit nothing). -/
theorem percentile_score_values_bounded (test bg : MIDf) (qf tf bgf : String)
    (sym : Bool) (v : ℚ)
    (h : (∃ row ∈ (compute_connectivities test bg qf tf bgf "percentile_score"
            sym).1.data, some v ∈ row)
       ∨ (∃ row ∈ (compute_connectivities test bg qf tf bgf "percentile_score"
            sym).2.data, some v ∈ row)) :
    -100 ≤ v ∧ v ≤ 100 := by
  have key : ∀ (fg bgl : List ℚ) (pr : ℚ × ℚ),
      scorePair "percentile_score" fg bgl = some pr →
      (-100 ≤ pr.1 ∧ pr.1 ≤ 100) ∧ (-100 ≤ pr.2 ∧ pr.2 ≤ 100) := by
    intro fg bgl pr hsp
    obtain ⟨hbg, hpr⟩ := scorePair_percentile_some fg bgl pr hsp
    obtain ⟨hl, hr⟩ := percentileScoreSigned_bounds fg bgl hbg
    subst hpr
    have habs : |percentileScoreSigned fg bgl| ≤ 100 := abs_le.mpr ⟨hl, hr⟩
    have habs0 : (0 : ℚ) ≤ |percentileScoreSigned fg bgl| := abs_nonneg _
    exact ⟨⟨by linarith, habs⟩, ⟨hl, hr⟩⟩
  rcases h with ⟨row, hrow, hv⟩ | ⟨row, hrow, hv⟩
  · simp only [compute_connectivities, List.mem_map] at hrow
    obtain ⟨t, -, rfl⟩ := hrow
    simp only [List.mem_map] at hv
    obtain ⟨q, -, hq⟩ := hv
    obtain ⟨pr, hpr, hval⟩ := Option.map_eq_some'.mp hq
    rw [← hval]
    exact (key _ _ _ hpr).1
  · simp only [compute_connectivities, List.mem_map] at hrow
    obtain ⟨t, -, rfl⟩ := hrow
    simp only [List.mem_map] at hv
    obtain ⟨q, -, hq⟩ := hv
    obtain ⟨pr, hpr, hval⟩ := Option.map_eq_some'.mp hq
    rw [← hval]
    exact (key _ _ _ hpr).2

/-- Witness for claim C8: the concrete emitted value -100 is in bounds. -/
theorem percentile_score_values_bounded_witness :
    -100 ≤ (-100 : ℚ) ∧ (-100 : ℚ) ≤ 100 :=
  percentile_score_values_bounded cT8 cB8 "query_field" "target_field"
    "target_field" false (-100)
    (Or.inr ⟨[some (-100)], by rw [c8_signed_eval]; simp, by simp⟩)

/-- Claim C9: an unrecognized similarity metric name (outside
{spearman, pearson}) or connectivity metric name (outside
{ks_test, percentile_score}) is rejected by the argument parser, before
`main` and hence before any similarity or connectivity computation: the
script's result is the parse error, whatever the input matrices and the
correlation kernel. -/
theorem unknown_metric_rejected_before_computation (a : CliArgs)
    (h : a.similarity_metric ∉ SIMILARITY_METRIC_CHOICES
       ∨ a.connectivity_metric ∉ CONNECTIVITY_METRIC_CHOICES) :
    ∃ msg, parse_args a = Except.error msg
      ∧ ∀ (corr : CorrKernel) (external_gct internal_gct bg_gct : GCToo),
          runScript corr external_gct internal_gct bg_gct a
            = Except.error msg := by
  by_cases h1 : SIMILARITY_METRIC_CHOICES.contains a.similarity_metric = true
  · by_cases h2 : CONNECTIVITY_METRIC_CHOICES.contains a.connectivity_metric = true
    · exfalso
      rcases h with hx | hx
      · exact hx (by simpa using h1)
      · exact hx (by simpa using h2)
    · refine ⟨"argument --connectivity_metric: invalid choice", ?_, ?_⟩
      · unfold parse_args
        rw [if_pos h1, if_neg h2]
      · intro corr external_gct internal_gct bg_gct
        unfold runScript parse_args
        rw [if_pos h1, if_neg h2]
  · refine ⟨"argument --similarity_metric: invalid choice", ?_, ?_⟩
    · unfold parse_args
      rw [if_neg h1]
    · intro corr external_gct internal_gct bg_gct
      unfold runScript parse_args
      rw [if_neg h1]

/-- Witness for claim C9 at a concrete unrecognized connectivity metric. -/
theorem unknown_metric_rejected_before_computation_witness :
    ("wtcs" ∉ SIMILARITY_METRIC_CHOICES
      ∨ "bogus" ∉ CONNECTIVITY_METRIC_CHOICES)
    ∧ ∃ msg,
        parse_args
          { similarity_metric := "spearman", connectivity_metric := "bogus"
            fields_to_aggregate_in_test_gct_queries := cFields
            fields_to_aggregate_in_test_gct_targets := cFields
            fields_to_aggregate_in_bg_gct := cFields } = Except.error msg
        ∧ ∀ (corr : CorrKernel) (external_gct internal_gct bg_gct : GCToo),
            runScript corr external_gct internal_gct bg_gct
              { similarity_metric := "spearman", connectivity_metric := "bogus"
                fields_to_aggregate_in_test_gct_queries := cFields
                fields_to_aggregate_in_test_gct_targets := cFields
                fields_to_aggregate_in_bg_gct := cFields } = Except.error msg :=
  ⟨Or.inr (by decide),
    unknown_metric_rejected_before_computation
      { similarity_metric := "spearman", connectivity_metric := "bogus"
        fields_to_aggregate_in_test_gct_queries := cFields
        fields_to_aggregate_in_test_gct_targets := cFields
        fields_to_aggregate_in_bg_gct := cFields }
      (Or.inr (by decide))⟩

/-- Claim C10: the metric-name columns are stamped onto both axes of each
output: the similarity gct's row and column metadata each receive the
constant `similarity_metric` column, and the signed connectivity gct's row
and column metadata each receive the constant `connectivity_metric`
column. -/
theorem metric_columns_stamped_on_both_axes (corr : CorrKernel)
    (external_gct internal_gct bg_gct : GCToo) (args : MainArgs) (r : RunResult)
    (h : mainRun corr external_gct internal_gct bg_gct args = Except.ok r) :
    r.row_metadata_for_sim_df.getCol SIMILARITY_METRIC_FIELD
        = some (List.replicate internal_gct.col_metadata_df.rowIds.length
            args.similarity_metric)
    ∧ r.col_metadata_for_sim_df.getCol SIMILARITY_METRIC_FIELD
        = some (List.replicate external_gct.col_metadata_df.rowIds.length
            args.similarity_metric)
    ∧ r.signed_row_metadata_df.getCol CONNECTIVITY_METRIC_FIELD
        = some (List.replicate r.signed_conn_mi_df.rowIds.length
            args.connectivity_metric)
    ∧ r.signed_col_metadata_df.getCol CONNECTIVITY_METRIC_FIELD
        = some (List.replicate r.signed_conn_mi_df.colIds.length
            args.connectivity_metric) := by
  obtain ⟨-, h2, h3, -, -, -, -, -, -, -, -, h12, h13⟩ :=
    mainRun_ok_spec corr external_gct internal_gct bg_gct args r h
  refine ⟨?_, ?_, ?_, ?_⟩
  · rw [h2]
    exact getCol_setColumnConstant_self _ _ _
  · rw [h3]
    exact getCol_setColumnConstant_self _ _ _
  · rw [h12]
    exact getCol_setColumnConstant_self _ _ _
  · rw [h13]
    exact getCol_setColumnConstant_self _ _ _

/-- Witness for claim C10 at a concrete successful run. -/
theorem metric_columns_stamped_on_both_axes_witness :
    ∃ r, mainRun cCorr cExternal cInternal cBg cArgs = Except.ok r
      ∧ r.row_metadata_for_sim_df.getCol SIMILARITY_METRIC_FIELD
          = some (List.replicate cInternal.col_metadata_df.rowIds.length
              cArgs.similarity_metric)
      ∧ r.signed_col_metadata_df.getCol CONNECTIVITY_METRIC_FIELD
          = some (List.replicate r.signed_conn_mi_df.colIds.length
              cArgs.connectivity_metric) := by
  cases h : mainRun cCorr cExternal cInternal cBg cArgs with
  | ok r =>
      have hm := metric_columns_stamped_on_both_axes cCorr cExternal cInternal
        cBg cArgs r h
      exact ⟨r, rfl, hm.1, hm.2.2.2⟩
  | error e =>
      have hok : exceptIsOk (mainRun cCorr cExternal cInternal cBg cArgs) = true := by
        decide
      rw [h] at hok
      exact absurd hok (by simp [exceptIsOk])
